import Mathlib

/-!
Verification of the tradelog-backend multi-account token management and
aggregation layer.

The definitions below are a shallow embedding of the relevant JavaScript and
SQL source:

* `TokenRow` — one row of the `user_plaid_tokens` table
  (database-schema-corrected.sql, section 1).
* `selectUserTokens` — the supabase select issued by the holdings and
  transactions handlers of server-secure.js (lines 379-382 / 459-462):
  `from('user_plaid_tokens').select('access_token, item_id').eq('user_id', uid)`.
  Note it carries NO `is_active` filter.
* `get_user_plaid_tokens` — the SQL helper of the same name
  (database-schema-corrected.sql, lines 152-177), which filters
  `is_active = true`.  The server-secure.js handlers do not call it.
* `upsertToken` — the supabase upsert issued by the exchange-public-token
  handler of server-secure.js (lines 338-349): payload
  `{user_id, access_token, item_id, created_at: now, updated_at: now}` with
  `onConflict: 'user_id,item_id'`.  On conflict only the supplied columns are
  replaced; `last_used_at`, `is_active` and the institution columns are left
  untouched.  On insert the table defaults apply (`is_active` TRUE,
  `last_used_at` NULL).  The BEFORE UPDATE trigger sets `updated_at = NOW()`,
  which coincides with the payload value, so `updated_at := now` covers both.
* `store_plaid_token` — the SQL function of the same name
  (database-schema-corrected.sql, lines 180-218): on conflict it replaces the
  token and sets `updated_at = NOW()`, `last_used_at = NOW()`,
  `is_active = true`.  Not called by either server variant.
* `getHoldings` / `getTransactions` — the GET /api/plaid/investments/holdings
  and POST /api/plaid/investments/transactions handlers of server-secure.js.
  The provider client is abstracted as an oracle returning `Option` data
  (`none` models a rejected `investmentsHoldingsGet` /
  `investmentsTransactionsGet` call, which the per-call catch turns into a
  JS `null` that is filtered out before the merge).
* `holdingsCalls` / `transactionsCalls` / `transactionsStoreReads` — the
  sequence of provider calls (one per token row, in row order) and the number
  of credential-store reads each handler performs, read off the same code.
* `exchangePublicToken` — the POST /api/plaid/exchange-public-token handler of
  server-secure.js (lines 323-371).  A `dbFails` flag models a supabase
  `dbError` on the upsert; the handler logs it and continues
  (`// Don't fail the request, but log the error`).
* `legacyExchange` — the POST /api/exchange_public_token handler of server.js
  (lines 146-188), whose success response carries the raw `access_token`.
* `legacyPlaidHoldings` / `investmentsHoldings` — the POST
  /api/plaid/investments/holdings (lines 288-326) and POST
  /api/investments/holdings (lines 225-285) handlers of server.js.  Both
  fan out with a bare `Promise.all`; a single rejected call rejects the whole
  aggregate (per-call handlers rethrow), modelled by `any isNone`.
* `writeResults` / `promiseAllCollect` / `getHoldingsSched` — a model of
  `Promise.all` completion order: tasks settle in an arbitrary schedule of
  indices, each writing its result into its own slot; the output array is
  read back in index order once every index has settled.
-/

/-- One row of the `user_plaid_tokens` table (database-schema-corrected.sql,
section 1).  Timestamps are abstracted as naturals. -/
structure TokenRow where
  user_id : String
  access_token : String
  item_id : String
  institution_id : Option String := none
  institution_name : Option String := none
  created_at : Nat
  updated_at : Nat
  last_used_at : Option Nat := none
  is_active : Bool := true
deriving Repr, DecidableEq

/-- Predicate for the UNIQUE(user_id, item_id) key of `user_plaid_tokens`. -/
def matchPair (uid item : String) (r : TokenRow) : Bool :=
  r.user_id == uid && r.item_id == item

/-- Number of rows stored for one (user_id, item_id) pair. -/
def countPair (store : List TokenRow) (uid item : String) : Nat :=
  store.countP (matchPair uid item)

/-- The select issued by the server-secure.js holdings/transactions handlers:
all rows of the user, with no `is_active` filter (server-secure.js 379-382). -/
def selectUserTokens (store : List TokenRow) (uid : String) : List TokenRow :=
  store.filter (fun r => r.user_id == uid)

/-- The SQL helper `get_user_plaid_tokens`
(database-schema-corrected.sql 152-177): rows of the user with
`is_active = true`. -/
def get_user_plaid_tokens (store : List TokenRow) (p_user_id : String) : List TokenRow :=
  store.filter (fun t => t.user_id == p_user_id && t.is_active)

/-- The supabase upsert of the exchange-public-token handler
(server-secure.js 338-349), `onConflict: 'user_id,item_id'`.  On conflict the
supplied columns (`access_token`, `created_at`, `updated_at`) are replaced and
every other column keeps its previous value; otherwise a fresh row is inserted
with the table defaults (`is_active` TRUE, `last_used_at` NULL). -/
def upsertToken (store : List TokenRow) (uid tok item : String) (now : Nat) : List TokenRow :=
  if store.any (matchPair uid item) then
    store.map (fun r =>
      if matchPair uid item r then
        { r with access_token := tok, created_at := now, updated_at := now }
      else r)
  else
    store ++ [{ user_id := uid, access_token := tok, item_id := item,
                institution_id := none, institution_name := none,
                created_at := now, updated_at := now,
                last_used_at := none, is_active := true }]

/-- The SQL function `store_plaid_token`
(database-schema-corrected.sql 180-218): INSERT ... ON CONFLICT (user_id,
item_id) DO UPDATE SET access_token, updated_at = NOW(),
last_used_at = NOW(), is_active = true. -/
def store_plaid_token (store : List TokenRow)
    (p_user_id p_access_token p_item_id : String)
    (p_institution_id p_institution_name : Option String) (now : Nat) : List TokenRow :=
  if store.any (matchPair p_user_id p_item_id) then
    store.map (fun r =>
      if matchPair p_user_id p_item_id r then
        { r with access_token := p_access_token, updated_at := now,
                 last_used_at := some now, is_active := true }
      else r)
  else
    store ++ [{ user_id := p_user_id, access_token := p_access_token,
                item_id := p_item_id,
                institution_id := p_institution_id,
                institution_name := p_institution_name,
                created_at := now, updated_at := now,
                last_used_at := none, is_active := true }]

/-- Payload of one successful `investmentsHoldingsGet` provider call
(`response.data`).  Individual records are abstracted as strings. -/
structure HoldingsData where
  accounts : List String
  holdings : List String
  securities : List String
  request_id : String
deriving Repr, DecidableEq

/-- The JSON body of a successful holdings response
(server-secure.js 427-436). -/
structure HoldingsResponse where
  accounts : List String
  holdings : List String
  securities : List String
  total_accounts : Nat
  total_holdings : Nat
  request_id : Option String
  fetched_accounts : Nat
  total_connected_accounts : Nat
deriving Repr, DecidableEq

/-- Outcome of the GET /api/plaid/investments/holdings handler. -/
inductive HoldingsResult where
  | noConnectedAccounts
  | allAccountsFailed
  | ok (resp : HoldingsResponse)
deriving Repr, DecidableEq

/-- Merge step of the holdings handler, applied to the settled non-null
responses (server-secure.js 410-436). -/
def mergeHoldings (validResponses : List HoldingsData) (totalTokens : Nat) : HoldingsResult :=
  if validResponses.length == 0 then
    HoldingsResult.allAccountsFailed
  else
    HoldingsResult.ok
      { accounts := (validResponses.map (fun r => r.accounts)).flatten
        holdings := (validResponses.map (fun r => r.holdings)).flatten
        securities := (validResponses.map (fun r => r.securities)).flatten
        total_accounts := ((validResponses.map (fun r => r.accounts)).flatten).length
        total_holdings := ((validResponses.map (fun r => r.holdings)).flatten).length
        request_id := validResponses.head?.map (fun r => r.request_id)
        fetched_accounts := validResponses.length
        total_connected_accounts := totalTokens }

/-- The GET /api/plaid/investments/holdings handler of server-secure.js
(lines 374-446).  `fetch` is the provider oracle: `none` models a rejected
per-token call (caught, logged and turned into null). -/
def getHoldings (store : List TokenRow) (uid : String)
    (fetch : String → Option HoldingsData) : HoldingsResult :=
  let tokens := selectUserTokens store uid
  if tokens.length == 0 then
    HoldingsResult.noConnectedAccounts
  else
    mergeHoldings ((tokens.map (fun t => fetch t.access_token)).filterMap id) tokens.length

/-- The sequence of provider calls (access tokens passed to
`investmentsHoldingsGet`) the holdings handler issues, in issue order. -/
def holdingsCalls (store : List TokenRow) (uid : String) : List String :=
  let tokens := selectUserTokens store uid
  if tokens.length == 0 then [] else tokens.map (fun t => t.access_token)

/-- Payload of one successful `investmentsTransactionsGet` provider call. -/
structure TransactionsData where
  accounts : List String
  investment_transactions : List String
  securities : List String
  request_id : String
deriving Repr, DecidableEq

/-- The JSON body of a successful transactions response
(server-secure.js 508-517). -/
structure TransactionsResponse where
  accounts : List String
  investment_transactions : List String
  securities : List String
  total_investment_transactions : Nat
  date_range : String × String
  request_id : Option String
  fetched_accounts : Nat
  total_connected_accounts : Nat
deriving Repr, DecidableEq

/-- Outcome of the POST /api/plaid/investments/transactions handler,
including the express-validator 400 for a malformed date. -/
inductive TransactionsResult where
  | validationError
  | noConnectedAccounts
  | allAccountsFailed
  | ok (resp : TransactionsResponse)
deriving Repr, DecidableEq

/-- The regex `^\d{4}-\d{2}-\d{2}$` applied by the express-validator chain of
the transactions endpoint (server-secure.js 450-451). -/
def matchesDatePattern (s : String) : Bool :=
  match s.toList with
  | [y1, y2, y3, y4, h1, m1, m2, h2, d1, d2] =>
      y1.isDigit && y2.isDigit && y3.isDigit && y4.isDigit &&
      h1 == '-' && m1.isDigit && m2.isDigit && h2 == '-' && d1.isDigit && d2.isDigit
  | _ => false

/-- Merge step of the transactions handler (server-secure.js 491-517). -/
def mergeTransactions (validResponses : List TransactionsData)
    (totalTokens : Nat) (start_date end_date : String) : TransactionsResult :=
  if validResponses.length == 0 then
    TransactionsResult.allAccountsFailed
  else
    TransactionsResult.ok
      { accounts := (validResponses.map (fun r => r.accounts)).flatten
        investment_transactions := (validResponses.map (fun r => r.investment_transactions)).flatten
        securities := (validResponses.map (fun r => r.securities)).flatten
        total_investment_transactions :=
          ((validResponses.map (fun r => r.investment_transactions)).flatten).length
        date_range := (start_date, end_date)
        request_id := validResponses.head?.map (fun r => r.request_id)
        fetched_accounts := validResponses.length
        total_connected_accounts := totalTokens }

/-- The POST /api/plaid/investments/transactions handler of server-secure.js
(lines 449-527).  The validation middleware runs before the handler body, so a
malformed date produces the 400 VALIDATION_ERROR before the credential-store
select and before any provider call. -/
def getTransactions (store : List TokenRow) (uid : String)
    (fetch : String → String → String → Option TransactionsData)
    (start_date end_date : String) : TransactionsResult :=
  if matchesDatePattern start_date && matchesDatePattern end_date then
    let tokens := selectUserTokens store uid
    if tokens.length == 0 then
      TransactionsResult.noConnectedAccounts
    else
      mergeTransactions
        ((tokens.map (fun t => fetch t.access_token start_date end_date)).filterMap id)
        tokens.length start_date end_date
  else
    TransactionsResult.validationError

/-- The sequence of provider calls the transactions handler issues. -/
def transactionsCalls (store : List TokenRow) (uid : String)
    (start_date end_date : String) : List (String × String × String) :=
  if matchesDatePattern start_date && matchesDatePattern end_date then
    let tokens := selectUserTokens store uid
    if tokens.length == 0 then []
    else tokens.map (fun t => (t.access_token, start_date, end_date))
  else []

/-- Number of credential-store reads the transactions handler performs: the
select at server-secure.js 459-462 runs only after validation passed. -/
def transactionsStoreReads (start_date end_date : String) : Nat :=
  if matchesDatePattern start_date && matchesDatePattern end_date then 1 else 0

/-- The JSON body of a successful secure exchange response
(server-secure.js 357-361).  It has no access-token field. -/
structure ExchangeResponse where
  success : Bool
  item_id : String
  message : String
deriving Repr, DecidableEq

/-- Outcome of the POST /api/plaid/exchange-public-token handler; `ok` carries
the resulting store state alongside the client-visible response body. -/
inductive ExchangeResult where
  | tokenExchangeFailed
  | ok (newStore : List TokenRow) (resp : ExchangeResponse)
deriving Repr, DecidableEq

/-- The POST /api/plaid/exchange-public-token handler of server-secure.js
(lines 323-371).  `exchange` is the provider's `itemPublicTokenExchange`
oracle, returning `(access_token, item_id)`.  `dbFails` models a supabase
`dbError` on the upsert: the handler logs it and answers success anyway
(lines 350-353, "Don't fail the request, but log the error"). -/
def exchangePublicToken (store : List TokenRow) (uid : String)
    (exchange : String → Option (String × String))
    (dbFails : Bool) (now : Nat) (public_token : String) : ExchangeResult :=
  match exchange public_token with
  | none => ExchangeResult.tokenExchangeFailed
  | some (access_token, item_id) =>
      let newStore := if dbFails then store else upsertToken store uid access_token item_id now
      ExchangeResult.ok newStore
        { success := true, item_id := item_id, message := "Account connected successfully" }

/-- Client-visible projection of an exchange outcome: the response body the
mobile client receives, without the backend store state. -/
def exchangeClientView : ExchangeResult → Option ExchangeResponse
  | ExchangeResult.tokenExchangeFailed => none
  | ExchangeResult.ok _ resp => some resp

/-- The JSON body of a successful legacy exchange response
(server.js 170-174): it returns the raw provider `access_token` to the
client. -/
structure LegacyExchangeResponse where
  access_token : String
  item_id : String
  request_id : String
deriving Repr, DecidableEq

/-- Outcome of the POST /api/exchange_public_token handler of server.js. -/
inductive LegacyExchangeResult where
  | missingPublicToken
  | tokenExchangeFailed
  | ok (resp : LegacyExchangeResponse)
deriving Repr, DecidableEq

/-- The POST /api/exchange_public_token handler of server.js (lines 146-188).
A missing `public_token` is modelled as the empty string.  The exchange oracle
returns `(access_token, item_id, request_id)`. -/
def legacyExchange (exchange : String → Option (String × String × String))
    (public_token : String) : LegacyExchangeResult :=
  if public_token == "" then
    LegacyExchangeResult.missingPublicToken
  else
    match exchange public_token with
    | none => LegacyExchangeResult.tokenExchangeFailed
    | some (access_token, item_id, request_id) =>
        LegacyExchangeResult.ok
          { access_token := access_token, item_id := item_id, request_id := request_id }

/-- Outcome of the POST /api/plaid/investments/holdings handler of server.js
(lines 288-326).  Its success body has no request_id field. -/
inductive LegacyHoldingsResult where
  | invalidAccessTokens
  | holdingsFetchFailed
  | ok (accounts holdings securities : List String) (total_accounts total_holdings : Nat)
deriving Repr, DecidableEq

/-- The POST /api/plaid/investments/holdings handler of server.js
(lines 288-326): `access_tokens` must be an array (`none` models a missing or
non-array body field) but MAY be empty; the fan-out is a bare `Promise.all`,
so any single rejected call fails the whole aggregate. -/
def legacyPlaidHoldings (fetch : String → Option HoldingsData)
    (access_tokens : Option (List String)) : LegacyHoldingsResult :=
  match access_tokens with
  | none => LegacyHoldingsResult.invalidAccessTokens
  | some toks =>
      let responses := toks.map fetch
      if responses.any (fun r => r.isNone) then
        LegacyHoldingsResult.holdingsFetchFailed
      else
        let datas := responses.filterMap id
        LegacyHoldingsResult.ok
          ((datas.map (fun d => d.accounts)).flatten)
          ((datas.map (fun d => d.holdings)).flatten)
          ((datas.map (fun d => d.securities)).flatten)
          (((datas.map (fun d => d.accounts)).flatten).length)
          (((datas.map (fun d => d.holdings)).flatten).length)

/-- The provider calls the legacy holdings handler issues: one per supplied
access token. -/
def legacyHoldingsCalls (access_tokens : Option (List String)) : List String :=
  match access_tokens with
  | none => []
  | some toks => toks

/-- Outcome of the POST /api/investments/holdings handler of server.js
(lines 225-285). -/
inductive InvestmentsHoldingsResult where
  | invalidAccessTokens
  | holdingsFetchFailed
  | ok (accounts holdings securities : List String)
      (total_accounts total_holdings : Nat) (request_id : Option String)
deriving Repr, DecidableEq

/-- The POST /api/investments/holdings handler of server.js (lines 225-285):
unlike the legacy variant it rejects an EMPTY `access_tokens` array with the
INVALID_ACCESS_TOKENS error whose display message reads "No connected accounts
found"; its per-call handlers rethrow, so `Promise.all` fails as a whole on
any single failure. -/
def investmentsHoldings (fetch : String → Option HoldingsData)
    (access_tokens : Option (List String)) : InvestmentsHoldingsResult :=
  match access_tokens with
  | none => InvestmentsHoldingsResult.invalidAccessTokens
  | some toks =>
      if toks.length == 0 then
        InvestmentsHoldingsResult.invalidAccessTokens
      else
        let responses := toks.map fetch
        if responses.any (fun r => r.isNone) then
          InvestmentsHoldingsResult.holdingsFetchFailed
        else
          let datas := responses.filterMap id
          InvestmentsHoldingsResult.ok
            ((datas.map (fun d => d.accounts)).flatten)
            ((datas.map (fun d => d.holdings)).flatten)
            ((datas.map (fun d => d.securities)).flatten)
            (((datas.map (fun d => d.accounts)).flatten).length)
            (((datas.map (fun d => d.holdings)).flatten).length)
            (datas.head?.map (fun d => d.request_id))

/-- Completion-order model of `Promise.all`: tasks settle in schedule order,
each write storing task `i`'s result into slot `i` of the output array. -/
def writeResults {α : Type} (results : List α) (sched : List Nat)
    (acc : Nat → Option α) : Nat → Option α :=
  sched.foldl (fun acc i => fun j => if j == i then results[i]? else acc j) acc

/-- The array `Promise.all` hands back, read in slot (call-issue) order after
the tasks settled in schedule order. -/
def promiseAllCollect {α : Type} (results : List α) (sched : List Nat) : List (Option α) :=
  (List.range results.length).map (fun j => writeResults results sched (fun _ => none) j)

/-- The holdings handler with the completion schedule made explicit: the
per-token results settle in `sched` order before the merge reads them back in
call-issue order. -/
def getHoldingsSched (store : List TokenRow) (uid : String)
    (fetch : String → Option HoldingsData) (sched : List Nat) : HoldingsResult :=
  let tokens := selectUserTokens store uid
  if tokens.length == 0 then
    HoldingsResult.noConnectedAccounts
  else
    let results := tokens.map (fun t => fetch t.access_token)
    let settled := (promiseAllCollect results sched).reduceOption
    mergeHoldings (settled.filterMap id) tokens.length

/-- Fixture for C1: user u1 with three linked credentials (items A, B, C). -/
def c1Store : List TokenRow :=
  [ { user_id := "u1", access_token := "tokA", item_id := "A", created_at := 0, updated_at := 0 },
    { user_id := "u1", access_token := "tokB", item_id := "B", created_at := 0, updated_at := 0 },
    { user_id := "u1", access_token := "tokC", item_id := "C", created_at := 0, updated_at := 0 } ]

/-- Fixture for C1: the provider calls for items A and C succeed, the call for
item B fails. -/
def c1Fetch : String → Option HoldingsData := fun tok =>
  if tok == "tokA" then
    some { accounts := ["accA"], holdings := ["hA1"], securities := ["secA"], request_id := "rA" }
  else if tok == "tokC" then
    some { accounts := ["accC"], holdings := ["hC1"], securities := ["secC"], request_id := "rC" }
  else none

/-- Credential row with is_active = false, used by the C2 and C4
counterexamples. -/
def inactiveRow : TokenRow :=
  { user_id := "u1", access_token := "tokX", item_id := "X",
    created_at := 0, updated_at := 0, last_used_at := none, is_active := false }

/-- A freshly inserted credential row carrying the table defaults
(is_active TRUE, last_used_at NULL, both timestamps at insertion time). -/
def freshRow (u t i : String) (n : Nat) : TokenRow :=
  { user_id := u, access_token := t, item_id := i,
    institution_id := none, institution_name := none,
    created_at := n, updated_at := n, last_used_at := none, is_active := true }

/-- Fixture for C9: a provider exchange oracle whose access token is
secretA. -/
def exA : String → Option (String × String) := fun _ => some ("secretA", "item1")

/-- Fixture for C9: the same oracle with a different access token and the
same item id. -/
def exB : String → Option (String × String) := fun _ => some ("secretB", "item1")

/-- Success case of the holdings handler: with at least one stored credential
and at least one succeeding call, the result merges exactly the succeeded
calls' records in call-issue order. -/
theorem getHoldings_ok_of_success (store : List TokenRow) (uid : String)
    (fetch : String → Option HoldingsData)
    (hne : selectUserTokens store uid ≠ [])
    (hsome : ∃ t ∈ selectUserTokens store uid, (fetch t.access_token).isSome) :
    getHoldings store uid fetch = HoldingsResult.ok
      { accounts := (((selectUserTokens store uid).filterMap (fun t => fetch t.access_token)).map
          (fun r => r.accounts)).flatten
        holdings := (((selectUserTokens store uid).filterMap (fun t => fetch t.access_token)).map
          (fun r => r.holdings)).flatten
        securities := (((selectUserTokens store uid).filterMap (fun t => fetch t.access_token)).map
          (fun r => r.securities)).flatten
        total_accounts := ((((selectUserTokens store uid).filterMap (fun t => fetch t.access_token)).map
          (fun r => r.accounts)).flatten).length
        total_holdings := ((((selectUserTokens store uid).filterMap (fun t => fetch t.access_token)).map
          (fun r => r.holdings)).flatten).length
        request_id := ((selectUserTokens store uid).filterMap (fun t => fetch t.access_token)).head?.map
          (fun r => r.request_id)
        fetched_accounts := ((selectUserTokens store uid).filterMap (fun t => fetch t.access_token)).length
        total_connected_accounts := (selectUserTokens store uid).length } := by
  obtain ⟨t, ht, hts⟩ := hsome
  have hmap : ((selectUserTokens store uid).map (fun t => fetch t.access_token)).filterMap id
      = (selectUserTokens store uid).filterMap (fun t => fetch t.access_token) := by
    simp [List.filterMap_map]
  have hlen : ((selectUserTokens store uid).length == 0) = false := by
    simp only [beq_eq_false_iff_ne, ne_eq, List.length_eq_zero]
    exact hne
  have hvne : (selectUserTokens store uid).filterMap (fun t => fetch t.access_token) ≠ [] := by
    intro hnil
    have := List.filterMap_eq_nil_iff.mp hnil t ht
    simp [this] at hts
  have hvlen : (((selectUserTokens store uid).filterMap (fun t => fetch t.access_token)).length == 0)
      = false := by
    simp only [beq_eq_false_iff_ne, ne_eq, List.length_eq_zero]
    exact hvne
  simp only [getHoldings, mergeHoldings, hmap, hlen, hvlen, Bool.false_eq_true, if_false]

/-- C1: for every user with at least one stored credential, if at least one
per-credential provider holdings call succeeds, getHoldings succeeds; a failed
call neither aborts the operation nor drops the other calls, and the response
holds exactly the records of the succeeded calls, in call-issue order, with
fetched_accounts the number of succeeded calls and total_connected_accounts
the number of stored credentials considered. -/
theorem C1_partial_failure_tolerance (store : List TokenRow) (uid : String)
    (fetch : String → Option HoldingsData)
    (hne : selectUserTokens store uid ≠ [])
    (hsome : ∃ t ∈ selectUserTokens store uid, (fetch t.access_token).isSome) :
    getHoldings store uid fetch = HoldingsResult.ok
      { accounts := (((selectUserTokens store uid).filterMap (fun t => fetch t.access_token)).map
          (fun r => r.accounts)).flatten
        holdings := (((selectUserTokens store uid).filterMap (fun t => fetch t.access_token)).map
          (fun r => r.holdings)).flatten
        securities := (((selectUserTokens store uid).filterMap (fun t => fetch t.access_token)).map
          (fun r => r.securities)).flatten
        total_accounts := ((((selectUserTokens store uid).filterMap (fun t => fetch t.access_token)).map
          (fun r => r.accounts)).flatten).length
        total_holdings := ((((selectUserTokens store uid).filterMap (fun t => fetch t.access_token)).map
          (fun r => r.holdings)).flatten).length
        request_id := ((selectUserTokens store uid).filterMap (fun t => fetch t.access_token)).head?.map
          (fun r => r.request_id)
        fetched_accounts := ((selectUserTokens store uid).filterMap (fun t => fetch t.access_token)).length
        total_connected_accounts := (selectUserTokens store uid).length } :=
  getHoldings_ok_of_success store uid fetch hne hsome

/-- Witness for C1 at the spec's own test scenario: three credentials, calls
one and three succeed, call two fails; the result merges exactly the records
of items A and C in that order, fetched_accounts = 2,
total_connected_accounts = 3. -/
theorem C1_witness :
    (selectUserTokens c1Store "u1" ≠ []) ∧
    (∃ t ∈ selectUserTokens c1Store "u1", (c1Fetch t.access_token).isSome) ∧
    getHoldings c1Store "u1" c1Fetch = HoldingsResult.ok
      { accounts := ["accA", "accC"], holdings := ["hA1", "hC1"],
        securities := ["secA", "secC"], total_accounts := 2, total_holdings := 2,
        request_id := some "rA", fetched_accounts := 2, total_connected_accounts := 3 } :=
  ⟨by decide, by decide,
    (C1_partial_failure_tolerance c1Store "u1" c1Fetch (by decide) (by decide)).trans (by decide)⟩

/-- C2 (amended): the holdings handler fans out over ALL stored credentials of
the user, whether active or not — its select has no is_active filter; the
is_active restriction of the spec's listActive exists only in the SQL helper
get_user_plaid_tokens, which the handler never calls. -/
theorem C2_fanout_ignores_is_active (store : List TokenRow) (uid : String) (r : TokenRow) :
    (r ∈ selectUserTokens store uid ↔ r ∈ store ∧ r.user_id = uid) ∧
    (r ∈ get_user_plaid_tokens store uid ↔ r ∈ store ∧ r.user_id = uid ∧ r.is_active = true) := by
  constructor
  · simp [selectUserTokens, List.mem_filter]
  · simp [get_user_plaid_tokens, List.mem_filter]

/-- Counterexample to C2 as stated: a credential whose is_active flag is false
IS used for a provider call — the handler issues a holdings call with its
access token, although the user's set of active credentials is empty. -/
theorem C2_counterexample :
    inactiveRow.is_active = false ∧
    holdingsCalls [inactiveRow] "u1" = ["tokX"] ∧
    get_user_plaid_tokens [inactiveRow] "u1" = [] := by decide

/-- Counterexample to C3 as stated: after upsert(u1, i1, t1) then
upsert(u1, i1, t2) through the handler's supabase upsert, the single row's
last_used_at is still unset (none), not the time of the second call; and
starting from a deactivated row, the upsert leaves is_active = false instead
of forcing it to true. -/
theorem C3_counterexample :
    ((upsertToken (upsertToken [] "u1" "t1" "i1" 1) "u1" "t2" "i1" 2).map
      (fun r => r.last_used_at) = [none]) ∧
    ((upsertToken [{ user_id := "u1", access_token := "t0", item_id := "i1",
                     created_at := 0, updated_at := 0, last_used_at := none,
                     is_active := false }]
        "u1" "t2" "i1" 2).map (fun r => r.is_active) = [false]) := by decide

/-- Rows of a store none of which match the pair are untouched by the
conditional update, and the appended fresh row is rewritten. -/
theorem fresh_then_update (store : List TokenRow) (p : TokenRow → Bool)
    (upd : TokenRow → TokenRow) (row : TokenRow)
    (hfalse : ∀ r ∈ store, p r = false) :
    (store ++ [row]).map (fun r => if p r then upd r else r) =
      store ++ [if p row then upd row else row] := by
  rw [List.map_append]
  congr 1
  calc store.map (fun r => if p r then upd r else r)
      = store.map id := List.map_congr_left (fun r hr => by simp [hfalse r hr])
    _ = store := List.map_id store

/-- C3 (amended): starting from a store with no row for (u, i), the handler's
upsert of t1 then t2 leaves exactly one row for the pair, holding
access_token = t2 with created_at and updated_at set to the second call's
time — but last_used_at stays unset and is_active = true only via the insert
default; the spec's full behavior (last_used_at and is_active refreshed on
conflict) is implemented only by the SQL function store_plaid_token, which
the handler does not call. -/
theorem C3_upsert_relink (store : List TokenRow) (u i t1 t2 : String) (n1 n2 : Nat)
    (h : countPair store u i = 0) :
    ((upsertToken (upsertToken store u t1 i n1) u t2 i n2).filter (matchPair u i) =
      [{ user_id := u, access_token := t2, item_id := i,
         institution_id := none, institution_name := none,
         created_at := n2, updated_at := n2, last_used_at := none, is_active := true }]) ∧
    countPair (upsertToken (upsertToken store u t1 i n1) u t2 i n2) u i = 1 ∧
    ((store_plaid_token (store_plaid_token store u t1 i none none n1)
        u t2 i none none n2).filter (matchPair u i) =
      [{ user_id := u, access_token := t2, item_id := i,
         institution_id := none, institution_name := none,
         created_at := n1, updated_at := n2, last_used_at := some n2, is_active := true }]) := by
  have hfalse : ∀ r ∈ store, matchPair u i r = false := by
    intro r hr
    have := List.countP_eq_zero.mp h r hr
    simpa using this
  have hany : store.any (matchPair u i) = false :=
    List.any_eq_false.mpr (fun r hr => by simp [hfalse r hr])
  have hself : matchPair u i (freshRow u t1 i n1) = true := by
    simp [matchPair, freshRow]
  have hmem : freshRow u t1 i n1 ∈ store ++ [freshRow u t1 i n1] := by simp
  have hany2 : (store ++ [freshRow u t1 i n1]).any (matchPair u i) = true :=
    List.any_eq_true.mpr ⟨freshRow u t1 i n1, hmem, hself⟩
  have hfilter : store.filter (matchPair u i) = [] :=
    List.filter_eq_nil_iff.mpr (fun r hr => by simp [hfalse r hr])
  have hcount : store.countP (matchPair u i) = 0 := h
  refine ⟨?_, ?_, ?_⟩
  · have s1 : upsertToken store u t1 i n1 = store ++ [freshRow u t1 i n1] := by
      simp [upsertToken, hany, freshRow]
    rw [s1]
    simp only [upsertToken]
    rw [if_pos hany2, fresh_then_update store _ _ _ hfalse, if_pos hself,
      List.filter_append, hfilter]
    simp [matchPair, freshRow]
  · have s1 : upsertToken store u t1 i n1 = store ++ [freshRow u t1 i n1] := by
      simp [upsertToken, hany, freshRow]
    rw [s1]
    simp only [upsertToken]
    rw [if_pos hany2, fresh_then_update store _ _ _ hfalse, if_pos hself]
    simp only [countPair, List.countP_append, hcount]
    simp [matchPair, freshRow]
  · have s1 : store_plaid_token store u t1 i none none n1 = store ++ [freshRow u t1 i n1] := by
      simp [store_plaid_token, hany, freshRow]
    rw [s1]
    simp only [store_plaid_token]
    rw [if_pos hany2, fresh_then_update store _ _ _ hfalse, if_pos hself,
      List.filter_append, hfilter]
    simp [matchPair, freshRow]

/-- Witness for C3 at a concrete relink: the empty store, items and tokens as
small strings, call times 1 and 2. -/
theorem C3_witness :
    countPair ([] : List TokenRow) "u1" "i1" = 0 ∧
    (((upsertToken (upsertToken [] "u1" "t1" "i1" 1) "u1" "t2" "i1" 2).filter
        (matchPair "u1" "i1") =
      [{ user_id := "u1", access_token := "t2", item_id := "i1",
         institution_id := none, institution_name := none,
         created_at := 2, updated_at := 2, last_used_at := none, is_active := true }]) ∧
    countPair (upsertToken (upsertToken [] "u1" "t1" "i1" 1) "u1" "t2" "i1" 2) "u1" "i1" = 1 ∧
    ((store_plaid_token (store_plaid_token [] "u1" "t1" "i1" none none 1)
        "u1" "t2" "i1" none none 2).filter (matchPair "u1" "i1") =
      [{ user_id := "u1", access_token := "t2", item_id := "i1",
         institution_id := none, institution_name := none,
         created_at := 1, updated_at := 2, last_used_at := some 2, is_active := true }])) :=
  ⟨by decide, C3_upsert_relink [] "u1" "i1" "t1" "t2" 1 2 (by decide)⟩

/-- Counterexample to C4 as stated: user u1 has zero ACTIVE credentials (the
only stored row is inactive), yet getHoldings does not fail with the
no-connected-accounts error — it issues a provider call for the inactive
credential's token and succeeds. -/
theorem C4_counterexample :
    get_user_plaid_tokens [inactiveRow] "u1" = [] ∧
    getHoldings [inactiveRow] "u1"
      (fun _ => some { accounts := ["a"], holdings := ["h"],
                       securities := ["s"], request_id := "r" }) ≠
      HoldingsResult.noConnectedAccounts ∧
    holdingsCalls [inactiveRow] "u1" ≠ [] := by decide

/-- C4 (amended): for a user with zero STORED credentials — the handler does
not distinguish active from inactive rows — getHoldings fails with the
NO_CONNECTED_ACCOUNTS error, issues no provider call, and that error is
distinct from ALL_ACCOUNTS_FAILED. -/
theorem C4_no_stored_credentials (store : List TokenRow) (uid : String)
    (fetch : String → Option HoldingsData)
    (h : selectUserTokens store uid = []) :
    getHoldings store uid fetch = HoldingsResult.noConnectedAccounts ∧
    holdingsCalls store uid = [] ∧
    HoldingsResult.noConnectedAccounts ≠ HoldingsResult.allAccountsFailed := by
  refine ⟨?_, ?_, by decide⟩
  · simp [getHoldings, h]
  · simp [holdingsCalls, h]

/-- Witness for C4 at a concrete store: c1Store holds rows for user u1 only,
so user nobody has no stored credential. -/
theorem C4_witness :
    selectUserTokens c1Store "nobody" = [] ∧
    (getHoldings c1Store "nobody" c1Fetch = HoldingsResult.noConnectedAccounts ∧
    holdingsCalls c1Store "nobody" = [] ∧
    HoldingsResult.noConnectedAccounts ≠ HoldingsResult.allAccountsFailed) :=
  ⟨by decide, C4_no_stored_credentials c1Store "nobody" c1Fetch (by decide)⟩

/-- C5: for a user with at least one stored credential, when every
per-credential provider call fails, getHoldings and getTransactions fail with
the ALL_ACCOUNTS_FAILED error rather than returning an empty merged result,
and the engine issues exactly one call per credential (no retry). -/
theorem C5_all_accounts_failed (store : List TokenRow) (uid : String)
    (hfetch : String → Option HoldingsData)
    (tfetch : String → String → String → Option TransactionsData)
    (start_date end_date : String)
    (hsd : matchesDatePattern start_date = true)
    (hed : matchesDatePattern end_date = true)
    (hne : selectUserTokens store uid ≠ [])
    (hfail : ∀ t ∈ selectUserTokens store uid, hfetch t.access_token = none)
    (tfail : ∀ t ∈ selectUserTokens store uid, tfetch t.access_token start_date end_date = none) :
    getHoldings store uid hfetch = HoldingsResult.allAccountsFailed ∧
    getTransactions store uid tfetch start_date end_date = TransactionsResult.allAccountsFailed ∧
    (holdingsCalls store uid).length = (selectUserTokens store uid).length ∧
    (transactionsCalls store uid start_date end_date).length =
      (selectUserTokens store uid).length := by
  have hlen : ((selectUserTokens store uid).length == 0) = false := by
    simp only [beq_eq_false_iff_ne, ne_eq, List.length_eq_zero]
    exact hne
  have hmapH : ((selectUserTokens store uid).map (fun t => hfetch t.access_token)).filterMap id
      = (selectUserTokens store uid).filterMap (fun t => hfetch t.access_token) := by
    simp [List.filterMap_map]
  have hnilH : (selectUserTokens store uid).filterMap (fun t => hfetch t.access_token) = [] :=
    List.filterMap_eq_nil_iff.mpr hfail
  have hmapT : ((selectUserTokens store uid).map
        (fun t => tfetch t.access_token start_date end_date)).filterMap id
      = (selectUserTokens store uid).filterMap
        (fun t => tfetch t.access_token start_date end_date) := by
    simp [List.filterMap_map]
  have hnilT : (selectUserTokens store uid).filterMap
      (fun t => tfetch t.access_token start_date end_date) = [] :=
    List.filterMap_eq_nil_iff.mpr tfail
  refine ⟨?_, ?_, ?_, ?_⟩
  · simp only [getHoldings, mergeHoldings, hlen, Bool.false_eq_true, if_false, hmapH, hnilH]
    simp
  · simp only [getTransactions, mergeTransactions, hsd, hed, Bool.and_self, if_true,
      hlen, Bool.false_eq_true, if_false, hmapT, hnilT]
    simp
  · simp [holdingsCalls, hlen]
  · simp [transactionsCalls, hsd, hed, hlen]

/-- Witness for C5: the three credentials of c1Store with provider oracles
that fail every call, over a well-formed date range. -/
theorem C5_witness :
    matchesDatePattern "2024-01-01" = true ∧
    matchesDatePattern "2024-02-01" = true ∧
    selectUserTokens c1Store "u1" ≠ [] ∧
    (∀ t ∈ selectUserTokens c1Store "u1",
      (fun _ => (none : Option HoldingsData)) t.access_token = none) ∧
    (∀ t ∈ selectUserTokens c1Store "u1",
      (fun _ _ _ => (none : Option TransactionsData)) t.access_token "2024-01-01" "2024-02-01"
        = none) ∧
    (getHoldings c1Store "u1" (fun _ => none) = HoldingsResult.allAccountsFailed ∧
    getTransactions c1Store "u1" (fun _ _ _ => none) "2024-01-01" "2024-02-01" =
      TransactionsResult.allAccountsFailed ∧
    (holdingsCalls c1Store "u1").length = (selectUserTokens c1Store "u1").length ∧
    (transactionsCalls c1Store "u1" "2024-01-01" "2024-02-01").length =
      (selectUserTokens c1Store "u1").length) :=
  ⟨by decide, by decide, by decide, by decide, by decide,
    C5_all_accounts_failed c1Store "u1" (fun _ => none) (fun _ _ _ => none)
      "2024-01-01" "2024-02-01" (by decide) (by decide) (by decide)
      (by decide) (by decide)⟩

/-- Each slot of the settled array holds its own task's result once that task
has settled, whatever order the writes happened in: the value written for
index i is always results[i]. -/
theorem writeResults_apply {α : Type} (results : List α) (sched : List Nat)
    (acc : Nat → Option α) (j : Nat) :
    writeResults results sched acc j = if j ∈ sched then results[j]? else acc j := by
  induction sched generalizing acc with
  | nil => simp [writeResults]
  | cons i rest ih =>
      have hstep : writeResults results (i :: rest) acc
          = writeResults results rest (fun k => if k == i then results[i]? else acc k) := rfl
      rw [hstep, ih]
      by_cases hj : j ∈ rest
      · simp [hj]
      · by_cases hji : j = i
        · subst hji
          simp [hj]
        · simp [hj, hji]

/-- Once every task index has settled, the array Promise.all hands back lists
the per-task results in call-issue order, independent of completion order. -/
theorem promiseAllCollect_complete {α : Type} (results : List α) (sched : List Nat)
    (h : ∀ i, i < results.length → i ∈ sched) :
    promiseAllCollect results sched = results.map some := by
  apply List.ext_getElem
  · simp [promiseAllCollect]
  · intro n h1 h2
    simp only [promiseAllCollect, List.getElem_map, List.getElem_range]
    rw [writeResults_apply]
    have hn : n < results.length := by
      simpa [promiseAllCollect] using h1
    rw [if_pos (h n hn)]
    simp [List.getElem?_eq_getElem hn]

/-- Stripping the settled-slot wrapper from a fully settled array recovers the
raw per-task results. -/
theorem reduceOption_map_some {α : Type} (l : List α) : (l.map some).reduceOption = l := by
  simp [List.reduceOption, List.filterMap_map]

/-- A fully settled schedule makes the schedule-explicit holdings handler
agree with the handler as written. -/
theorem getHoldingsSched_complete (store : List TokenRow) (uid : String)
    (fetch : String → Option HoldingsData) (sched : List Nat)
    (h : ∀ i, i < (selectUserTokens store uid).length → i ∈ sched) :
    getHoldingsSched store uid fetch sched = getHoldings store uid fetch := by
  simp only [getHoldingsSched, getHoldings]
  rw [promiseAllCollect_complete ((selectUserTokens store uid).map (fun t => fetch t.access_token))
    sched (by simpa using h), reduceOption_map_some]

/-- C6: with a fixed credential list and fixed per-credential provider
responses, the merged output does not depend on the completion schedule: any
two fully settled schedules produce identical results, both equal to the
in-issue-order handler, and (when some call succeeds) the merged arrays are
the concatenation of the successful per-credential results in credential-list
order. -/
theorem C6_deterministic_merge (store : List TokenRow) (uid : String)
    (fetch : String → Option HoldingsData) (sched1 sched2 : List Nat)
    (h1 : ∀ i, i < (selectUserTokens store uid).length → i ∈ sched1)
    (h2 : ∀ i, i < (selectUserTokens store uid).length → i ∈ sched2) :
    getHoldingsSched store uid fetch sched1 = getHoldingsSched store uid fetch sched2 ∧
    getHoldingsSched store uid fetch sched1 = getHoldings store uid fetch ∧
    (selectUserTokens store uid ≠ [] →
      (∃ t ∈ selectUserTokens store uid, (fetch t.access_token).isSome) →
      getHoldingsSched store uid fetch sched1 = HoldingsResult.ok
        { accounts := (((selectUserTokens store uid).filterMap (fun t => fetch t.access_token)).map
            (fun r => r.accounts)).flatten
          holdings := (((selectUserTokens store uid).filterMap (fun t => fetch t.access_token)).map
            (fun r => r.holdings)).flatten
          securities := (((selectUserTokens store uid).filterMap (fun t => fetch t.access_token)).map
            (fun r => r.securities)).flatten
          total_accounts := ((((selectUserTokens store uid).filterMap (fun t => fetch t.access_token)).map
            (fun r => r.accounts)).flatten).length
          total_holdings := ((((selectUserTokens store uid).filterMap (fun t => fetch t.access_token)).map
            (fun r => r.holdings)).flatten).length
          request_id := ((selectUserTokens store uid).filterMap (fun t => fetch t.access_token)).head?.map
            (fun r => r.request_id)
          fetched_accounts := ((selectUserTokens store uid).filterMap (fun t => fetch t.access_token)).length
          total_connected_accounts := (selectUserTokens store uid).length }) := by
  have e1 := getHoldingsSched_complete store uid fetch sched1 h1
  have e2 := getHoldingsSched_complete store uid fetch sched2 h2
  exact ⟨e1.trans e2.symm, e1,
    fun hne hsome => e1.trans (getHoldings_ok_of_success store uid fetch hne hsome)⟩

/-- Witness for C6: the three credentials of c1Store under the completion
schedules [2, 0, 1] and [0, 1, 2]. -/
theorem C6_witness :
    (∀ i, i < (selectUserTokens c1Store "u1").length → i ∈ [2, 0, 1]) ∧
    (∀ i, i < (selectUserTokens c1Store "u1").length → i ∈ [0, 1, 2]) ∧
    (getHoldingsSched c1Store "u1" c1Fetch [2, 0, 1] =
        getHoldingsSched c1Store "u1" c1Fetch [0, 1, 2] ∧
      getHoldingsSched c1Store "u1" c1Fetch [2, 0, 1] = getHoldings c1Store "u1" c1Fetch ∧
      (selectUserTokens c1Store "u1" ≠ [] →
        (∃ t ∈ selectUserTokens c1Store "u1", (c1Fetch t.access_token).isSome) →
        getHoldingsSched c1Store "u1" c1Fetch [2, 0, 1] = HoldingsResult.ok
          { accounts := (((selectUserTokens c1Store "u1").filterMap
              (fun t => c1Fetch t.access_token)).map (fun r => r.accounts)).flatten
            holdings := (((selectUserTokens c1Store "u1").filterMap
              (fun t => c1Fetch t.access_token)).map (fun r => r.holdings)).flatten
            securities := (((selectUserTokens c1Store "u1").filterMap
              (fun t => c1Fetch t.access_token)).map (fun r => r.securities)).flatten
            total_accounts := ((((selectUserTokens c1Store "u1").filterMap
              (fun t => c1Fetch t.access_token)).map (fun r => r.accounts)).flatten).length
            total_holdings := ((((selectUserTokens c1Store "u1").filterMap
              (fun t => c1Fetch t.access_token)).map (fun r => r.holdings)).flatten).length
            request_id := ((selectUserTokens c1Store "u1").filterMap
              (fun t => c1Fetch t.access_token)).head?.map (fun r => r.request_id)
            fetched_accounts := ((selectUserTokens c1Store "u1").filterMap
              (fun t => c1Fetch t.access_token)).length
            total_connected_accounts := (selectUserTokens c1Store "u1").length })) :=
  ⟨by decide, by decide,
    C6_deterministic_merge c1Store "u1" c1Fetch [2, 0, 1] [0, 1, 2] (by decide) (by decide)⟩

/-- C7: a malformed start or end date makes the transactions endpoint fail
with the VALIDATION_ERROR before touching the credential store and before any
provider call: the outcome is identical for every store and oracle, the
issued-call list is empty, and the handler performs zero store reads. -/
theorem C7_date_validation (store : List TokenRow) (uid : String)
    (fetch : String → String → String → Option TransactionsData)
    (start_date end_date : String)
    (h : matchesDatePattern start_date = false ∨ matchesDatePattern end_date = false) :
    getTransactions store uid fetch start_date end_date = TransactionsResult.validationError ∧
    transactionsCalls store uid start_date end_date = [] ∧
    transactionsStoreReads start_date end_date = 0 := by
  have hand : (matchesDatePattern start_date && matchesDatePattern end_date) = false := by
    rcases h with h | h <;> simp [h]
  refine ⟨?_, ?_, ?_⟩ <;>
    simp [getTransactions, transactionsCalls, transactionsStoreReads, hand]

/-- Witness for C7 at a malformed start date. -/
theorem C7_witness :
    (matchesDatePattern "not-a-date" = false ∨ matchesDatePattern "2024-02-01" = false) ∧
    (getTransactions c1Store "u1" (fun _ _ _ => none) "not-a-date" "2024-02-01" =
        TransactionsResult.validationError ∧
      transactionsCalls c1Store "u1" "not-a-date" "2024-02-01" = [] ∧
      transactionsStoreReads "not-a-date" "2024-02-01" = 0) :=
  ⟨by decide,
    C7_date_validation c1Store "u1" (fun _ _ _ => none) "not-a-date" "2024-02-01" (by decide)⟩

/-- Counterexample to C8 as stated: with a failing credential store (dbFails)
and a successful provider exchange, the secure exchange endpoint still answers
success = true and the token write is silently lost (the store stays empty,
although a successful write would have inserted a row). -/
theorem C8_counterexample :
    exchangePublicToken [] "u1" (fun _ => some ("tokS", "itemS")) true 7 "pub" =
      ExchangeResult.ok []
        { success := true, item_id := "itemS", message := "Account connected successfully" } ∧
    upsertToken [] "u1" "tokS" "itemS" 7 ≠ [] := by
  exact ⟨by decide, by decide⟩

/-- C8 (amended): a storage-layer failure of the credential write during the
public-token exchange is logged and swallowed: whenever the provider exchange
succeeds, the endpoint reports success = true with the item id even though the
write was lost and the store is unchanged; the failure is never surfaced to
the caller. -/
theorem C8_db_failure_still_success (store : List TokenRow) (uid : String)
    (exchange : String → Option (String × String)) (now : Nat) (public_token : String)
    (access_token item_id : String)
    (hex : exchange public_token = some (access_token, item_id)) :
    exchangePublicToken store uid exchange true now public_token =
      ExchangeResult.ok store
        { success := true, item_id := item_id, message := "Account connected successfully" } := by
  simp [exchangePublicToken, hex]

/-- Witness for C8 at a concrete failing store. -/
theorem C8_witness :
    (fun (_ : String) => some ("at1", "item1")) "pt" = some ("at1", "item1") ∧
    exchangePublicToken [] "u1" (fun _ => some ("at1", "item1")) true 5 "pt" =
      ExchangeResult.ok []
        { success := true, item_id := "item1", message := "Account connected successfully" } :=
  ⟨rfl, C8_db_failure_still_success [] "u1" (fun _ => some ("at1", "item1")) 5 "pt" "at1" "item1" rfl⟩

/-- Counterexample to C9 as stated: the legacy exchange endpoint of server.js
returns the provider's long-lived access token in its client-visible response
body. -/
theorem C9_counterexample :
    legacyExchange (fun _ => some ("secretA", "item1", "req1")) "pub" =
      LegacyExchangeResult.ok
        { access_token := "secretA", item_id := "item1", request_id := "req1" } := by decide

/-- C9 (amended): the SECURE exchange endpoint's client-visible response never
carries the provider access token — it is invariant under changing the
access-token component of the provider's exchange result (noninterference);
the token flows only into the backend credential store.  The legacy server.js
exchange endpoint, by contrast, returns the raw token (see the
counterexample). -/
theorem C9_no_token_in_secure_response (store : List TokenRow) (uid : String)
    (ex1 ex2 : String → Option (String × String)) (dbFails : Bool) (now : Nat)
    (public_token : String)
    (h : ∀ s, (ex1 s).map Prod.snd = (ex2 s).map Prod.snd) :
    exchangeClientView (exchangePublicToken store uid ex1 dbFails now public_token) =
      exchangeClientView (exchangePublicToken store uid ex2 dbFails now public_token) := by
  have hp := h public_token
  cases he1 : ex1 public_token with
  | none =>
      cases he2 : ex2 public_token with
      | none => simp [exchangePublicToken, he1, he2]
      | some w =>
          rw [he1, he2] at hp
          simp at hp
  | some v =>
      cases he2 : ex2 public_token with
      | none =>
          rw [he1, he2] at hp
          simp at hp
      | some w =>
          rw [he1, he2] at hp
          obtain ⟨a1, i1⟩ := v
          obtain ⟨a2, i2⟩ := w
          simp at hp
          simp [exchangePublicToken, he1, he2, exchangeClientView, hp]

/-- Witness for C9: two oracles differing only in the access token they
return produce byte-identical client responses. -/
theorem C9_witness :
    (∀ s, (exA s).map Prod.snd = (exB s).map Prod.snd) ∧
    exchangeClientView (exchangePublicToken [] "u1" exA false 3 "pub") =
      exchangeClientView (exchangePublicToken [] "u1" exB false 3 "pub") :=
  ⟨fun _ => rfl, C9_no_token_in_secure_response [] "u1" exA exB false 3 "pub" (fun _ => rfl)⟩

/-- C10: the legacy holdings endpoint of server.js accepts an EMPTY
access_tokens array: it issues no provider call and answers success with
empty accounts/holdings/securities and total_accounts = 0, whereas the
non-legacy variant rejects the empty array with its no-connected-accounts
flavored INVALID_ACCESS_TOKENS error. -/
theorem C10_legacy_empty_token_list (fetch : String → Option HoldingsData) :
    legacyPlaidHoldings fetch (some []) = LegacyHoldingsResult.ok [] [] [] 0 0 ∧
    legacyHoldingsCalls (some []) = [] ∧
    investmentsHoldings fetch (some []) = InvestmentsHoldingsResult.invalidAccessTokens :=
  ⟨rfl, rfl, rfl⟩
